import Mathlib

/-!
Shallow embedding of the query service in `src/app.py` of the
`sql_result_gen` repository (a FastAPI text-to-SQL proof of concept),
together with theorems settling the specification claims about it.

The embedding models the `POST /query` handler `query_database` as a pure
function.  External effects are made explicit:
  * the MD5 hash used for cache keys is an arbitrary function parameter
    `h : String → String` (the code only ever applies it to strings, so
    every claim holds for every choice of `h`, in particular for MD5);
  * the outcome of the relevance-check LLM call and of the SQL-agent
    invocation are parameters of type `LLMResult` / `AgentResult`
    describing what the external call would return if it were made;
  * the calls actually performed are recorded in an `Effect` trace;
  * the two module-level dict caches are association lists in a
    `ServiceState` record threaded through the handler.
-/

/-- Python `s.lower()` (ASCII case mapping, which covers every string the
code compares). -/
def pyLower (s : String) : String :=
  String.mk (s.toList.map Char.toLower)

/-- Python `s.upper()` (ASCII case mapping). -/
def pyUpper (s : String) : String :=
  String.mk (s.toList.map Char.toUpper)

/-- Python `s.strip()`: drop leading and trailing whitespace. -/
def pyStrip (s : String) : String :=
  String.mk
    (((s.toList.dropWhile Char.isWhitespace).reverse.dropWhile Char.isWhitespace).reverse)

/-- Python `pat in hay` over char lists, prefix direction: `startsWithL hay pat`
is true when `pat` is an initial segment of `hay`. -/
def startsWithL : List Char → List Char → Bool
  | _, [] => true
  | [], _ :: _ => false
  | a :: as, b :: bs => a == b && startsWithL as bs

/-- Python substring containment `pat in hay` over char lists. -/
def hasSubstrL : List Char → List Char → Bool
  | [], pat => pat.isEmpty
  | hay@(_ :: t), pat => startsWithL hay pat || hasSubstrL t pat

/-- Python `pat in hay` for strings. -/
def strContains (hay pat : String) : Bool :=
  hasSubstrL hay.toList pat.toList

/-- Python `hay.split(pat, 1)[1]`: the remainder of `hay` after the first
occurrence of `pat`; `none` when `pat` does not occur. -/
def afterFirstL : List Char → List Char → Option (List Char)
  | [], pat => if pat.isEmpty then some [] else none
  | hay@(_ :: t), pat =>
    if startsWithL hay pat then some (hay.drop pat.length)
    else afterFirstL t pat

/-- Worker for `removeOccsL`.  The fuel argument only serves structural
termination: every recursive call consumes at least one character of the
haystack, so `fuel := hay.length` never runs out. -/
def removeOccsAux (pat : List Char) : Nat → List Char → List Char
  | _, [] => []
  | 0, hay => hay
  | fuel + 1, c :: t =>
    if startsWithL (c :: t) pat && !pat.isEmpty then
      removeOccsAux pat fuel (t.drop (pat.length - 1))
    else
      c :: removeOccsAux pat fuel t

/-- Python `hay.replace(pat, '')`: delete every (non-overlapping, leftmost)
occurrence of `pat` from `hay`. -/
def removeOccsL (pat : List Char) (hay : List Char) : List Char :=
  removeOccsAux pat hay.length hay

/-- Python `s.replace(pat, '')` for strings. -/
def strRemove (s pat : String) : String :=
  String.mk (removeOccsL pat.toList s.toList)

/-- Python `s.isdigit()` (restricted to ASCII digits, which is all the code
relies on): non-empty and every character a decimal digit. -/
def pyIsDigit (s : String) : Bool :=
  !s.isEmpty && s.toList.all Char.isDigit

/-- Association-list lookup modelling Python dict read `d[k]` / `k in d`. -/
def lookupA : List (String × String) → String → Option String
  | [], _ => none
  | (k, v) :: rest, key => if k == key then some v else lookupA rest key

/-- The two module-level caches of `app.py` (`relevance_cache` and
`response_cache`), modelled as association lists where an assignment
prepends a binding (shadowing any older one, matching dict overwrite). -/
structure ServiceState where
  relevance_cache : List (String × String)
  response_cache : List (String × String)
deriving Repr, DecidableEq

/-- Outcome the external LLM call would produce if invoked for the
relevance check: the reply content, or a raised exception's text. -/
inductive LLMResult where
  | ok (content : String)
  | err (msg : String)
deriving Repr, DecidableEq

/-- One intermediate step `(action, observation)` of the agent run, with the
fields of `action` that `app.py` reads (`tool` and `log`). -/
structure AgentStep where
  tool : String
  log : String
deriving Repr, DecidableEq

/-- Outcome the external `agent_executor.invoke` call would produce:
the final `output` string and `intermediate_steps`, or a raised
exception's text. -/
inductive AgentResult where
  | ok (output : String) (steps : List AgentStep)
  | err (msg : String)
deriving Repr, DecidableEq

/-- External calls the handler actually performs, in order. -/
inductive Effect where
  | llmRelevanceCall
  | agentCall
deriving Repr, DecidableEq

/-- The value returned to the HTTP caller plus the final cache state and
effect trace.  Every return statement in `query_database` returns a JSON
body `{"response": ...}` with status 200; no other status is produced. -/
structure QueryResult where
  status : Nat
  response : String
  state : ServiceState
  effects : List Effect
deriving Repr, DecidableEq

/-- `greetings` list of `app.py` line 75. -/
def greetings : List String :=
  ["hi", "hello", "hey", "greetings", "good morning", "good afternoon", "good evening"]

/-- Greeting test of `app.py` line 76:
`question.lower() in greetings or any(greet in question.lower() for greet in greetings)`. -/
def isGreeting (question : String) : Bool :=
  greetings.contains (pyLower question)
    || greetings.any (fun greet => strContains (pyLower question) greet)

/-- Fixed greeting reply, `app.py` line 77. -/
def greetingMessage : String :=
  "Hello! I\x27m here to help with questions about port financials and operations. What would you like to know?"

/-- Relevance-check prompt built at `app.py` line 82. -/
def relevancePrompt (question : String) : String :=
  "Is this question about port financials or operations? Answer \x27yes\x27 or \x27no\x27: " ++ question

/-- Fixed decline reply for out-of-domain questions, `app.py` line 102. -/
def declineMessage : String :=
  "I\x27m sorry, I can only answer questions about port financials and operations."

/-- Quota-exhaustion reply, `app.py` line 145. -/
def quotaMessage : String :=
  "Sorry, the AI service quota has been exceeded. Please check your Google Cloud billing or wait for the quota to reset (typically daily for free tier)."

/-- Generic apology reply, `app.py` line 148. -/
def apologyMessage : String :=
  "I\x27m sorry, I encountered an error processing your question. Please try rephrasing."

/-- Quota/rate-limit classification of an exception's text, used at
`app.py` lines 94 and 143:
`"ResourceExhausted" in s or "429" in s or "quota" in s.lower()`. -/
def isQuotaError (s : String) : Bool :=
  strContains s "ResourceExhausted" || strContains s "429"
    || strContains (pyLower s) "quota"

/-- Numeric-answer test of `app.py` line 127:
`final_answer and final_answer.replace(',', '').replace('.', '').replace(' ', '').isdigit()`. -/
def isPureNumeric (final_answer : String) : Bool :=
  !final_answer.isEmpty
    && pyIsDigit (strRemove (strRemove (strRemove final_answer ",") ".") " ")

/-- Default placeholder for the extracted SQL text, `app.py` line 113. -/
def sqlDefault : String := "Generated by SQL Agent"

/-- Body of the `for step in intermediate_steps` loop of `app.py`
lines 115-124, updating the running `sql_query` value. -/
def extractSqlStep (sql_query : String) (step : AgentStep) : String :=
  if step.tool == "sql_db_query" then
    if strContains step.log "Action Input:" then
      match afterFirstL step.log.toList ("Action Input:".toList) with
      | some rest =>
        let input_part := pyStrip (String.mk rest)
        let cleaned_query :=
          pyStrip (strRemove (strRemove input_part "\x60\x60\x60sql") "\x60\x60\x60")
        if strContains (pyUpper cleaned_query) "SELECT"
            || strContains (pyUpper cleaned_query) "select" then
          cleaned_query
        else sql_query
      | none => sql_query
    else sql_query
  else sql_query

/-- SQL extraction over all intermediate steps, `app.py` lines 113-124. -/
def extractSql (steps : List AgentStep) : String :=
  steps.foldl extractSqlStep sqlDefault

/-- Store into `response_cache[question_hash]` (dict assignment). -/
def cacheResponse (st : ServiceState) (question_hash response : String) : ServiceState :=
  { st with response_cache := (question_hash, response) :: st.response_cache }

/-- Relevance-check step, `app.py` lines 81-99: consult `relevance_cache`,
otherwise call the LLM; on success lowercase and cache the reply, on any
exception fall back to `"yes"` (both the quota and the generic branch set
`relevance_response = "yes"` and write nothing to the cache).  Returns the
relevance response, the updated state, and the effects performed. -/
def relevanceStep (h : String → String) (llm : LLMResult) (st : ServiceState)
    (question : String) : String × ServiceState × List Effect :=
  let relevance_hash := h (relevancePrompt question)
  match lookupA st.relevance_cache relevance_hash with
  | some cached => (cached, st, [])
  | none =>
    match llm with
    | LLMResult.ok content =>
      let relevance_response := pyLower content
      (relevance_response,
        { st with relevance_cache := (relevance_hash, relevance_response) :: st.relevance_cache },
        [Effect.llmRelevanceCall])
    | LLMResult.err e =>
      if isQuotaError e then ("yes", st, [Effect.llmRelevanceCall])
      else ("yes", st, [Effect.llmRelevanceCall])

/-- Success branch of agent execution, `app.py` lines 108-140: extract the
SQL text from the intermediate steps, wrap a purely numeric answer in a
sentence, append the SQL text when one was found, cache and return. -/
def agentSuccess (st : ServiceState) (question_hash output : String)
    (steps : List AgentStep) (effects : List Effect) : QueryResult :=
  let final_answer := output
  let sql_query := extractSql steps
  let final_answer :=
    if isPureNumeric final_answer then "The result is " ++ final_answer ++ "."
    else final_answer
  let final_answer :=
    if sql_query != sqlDefault then
      final_answer ++ "\n\nSQL Query Used: " ++ sql_query
    else final_answer
  ⟨200, final_answer, cacheResponse st question_hash final_answer, effects⟩

/-- Exception branch of agent execution, `app.py` lines 141-152. -/
def agentFailure (st : ServiceState) (question_hash error_str : String)
    (effects : List Effect) : QueryResult :=
  let response := if isQuotaError error_str then quotaMessage else apologyMessage
  ⟨200, response, cacheResponse st question_hash response, effects⟩

/-- The `POST /query` handler `query_database` of `app.py` lines 64-152.
`h` stands for `lambda s: hashlib.md5(s.encode()).hexdigest()`; `llm` and
`agent` describe what the external LLM / agent calls would return. -/
def query_database (h : String → String) (llm : LLMResult) (agent : AgentResult)
    (st : ServiceState) (raw_question : String) : QueryResult :=
  let question := pyStrip raw_question
  let question_hash := h question
  match lookupA st.response_cache question_hash with
  | some cached => ⟨200, cached, st, []⟩
  | none =>
    if isGreeting question then
      ⟨200, greetingMessage, cacheResponse st question_hash greetingMessage, []⟩
    else
      let r := relevanceStep h llm st question
      let relevance_response := r.1
      let st1 := r.2.1
      let effects1 := r.2.2
      if strContains relevance_response "no" then
        ⟨200, declineMessage, cacheResponse st1 question_hash declineMessage, effects1⟩
      else
        match agent with
        | AgentResult.ok output steps =>
          agentSuccess st1 question_hash output steps (effects1 ++ [Effect.agentCall])
        | AgentResult.err e =>
          agentFailure st1 question_hash e (effects1 ++ [Effect.agentCall])

/-- Tool names yielded by langchain's `SQLDatabaseToolkit.get_tools()`:
query execution, schema introspection, table listing, and the query
checker.  `app.py` line 51 constructs the toolkit with no filtering
(`toolkit = SQLDatabaseToolkit(db=db, llm=llm)`, commented
"no filtering needed for create_sql_agent"), and line 54 hands it whole to
`create_sql_agent`. -/
def sqlDatabaseToolkitTools : List String :=
  ["sql_db_query", "sql_db_schema", "sql_db_list_tables", "sql_db_query_checker"]

/-- The tool set bound to the SQL agent in `app.py`: the unfiltered toolkit. -/
def agentToolkitTools : List String := sqlDatabaseToolkitTools

/-! ### Helper lemmas about the association-list caches -/

theorem lookupA_cons (k' v' : String) (l : List (String × String)) (k : String) :
    lookupA ((k', v') :: l) k = if k' == k then some v' else lookupA l k := rfl

theorem lookupA_cons_self (k v : String) (l : List (String × String)) :
    lookupA ((k, v) :: l) k = some v := by
  rw [lookupA_cons]
  simp

theorem lookupA_insert_preserve (l : List (String × String)) (k' v' : String)
    (hk : lookupA l k' = none) (k v : String) (hv : lookupA l k = some v) :
    lookupA ((k', v') :: l) k = some v := by
  rw [lookupA_cons]
  by_cases hkk : (k' == k) = true
  · have hek : k' = k := eq_of_beq hkk
    subst hek
    rw [hk] at hv
    exact absurd hv (by simp)
  · simp only [hkk]
    simp only [Bool.false_eq_true, if_false]
    exact hv

theorem lookupA_insert_changed (l : List (String × String)) (k' v' k : String)
    (hne : lookupA ((k', v') :: l) k ≠ lookupA l k) : k = k' := by
  rw [lookupA_cons] at hne
  by_cases hkk : (k' == k) = true
  · exact (eq_of_beq hkk).symm
  · simp [hkk] at hne

/-! ### Shape lemmas about the pipeline -/

theorem relevanceStep_response_cache (h : String → String) (llm : LLMResult)
    (st : ServiceState) (question : String) :
    (relevanceStep h llm st question).2.1.response_cache = st.response_cache := by
  unfold relevanceStep
  cases hl : lookupA st.relevance_cache (h (relevancePrompt question)) with
  | some c => simp [hl]
  | none =>
    cases llm with
    | ok content => simp [hl]
    | err e =>
      by_cases hq : isQuotaError e = true <;> simp [hl, hq]

theorem relevanceStep_relevance_cache (h : String → String) (llm : LLMResult)
    (st : ServiceState) (question : String) :
    (relevanceStep h llm st question).2.1.relevance_cache = st.relevance_cache ∨
    (lookupA st.relevance_cache (h (relevancePrompt question)) = none ∧
      ∃ y, (relevanceStep h llm st question).2.1.relevance_cache =
        (h (relevancePrompt question), y) :: st.relevance_cache) := by
  unfold relevanceStep
  cases hl : lookupA st.relevance_cache (h (relevancePrompt question)) with
  | some c => left; simp [hl]
  | none =>
    cases llm with
    | ok content => right; exact ⟨rfl, pyLower content, by simp [hl]⟩
    | err e =>
      left
      by_cases hq : isQuotaError e = true <;> simp [hl, hq]

theorem relevanceStep_effects (h : String → String) (llm : LLMResult)
    (st : ServiceState) (question : String) :
    (relevanceStep h llm st question).2.2 = [] ∨
    (relevanceStep h llm st question).2.2 = [Effect.llmRelevanceCall] := by
  unfold relevanceStep
  cases hl : lookupA st.relevance_cache (h (relevancePrompt question)) with
  | some c => left; simp [hl]
  | none =>
    cases llm with
    | ok content => right; simp [hl]
    | err e =>
      right
      by_cases hq : isQuotaError e = true <;> simp [hl, hq]

theorem query_database_cache_hit (h : String → String) (llm : LLMResult)
    (agent : AgentResult) (st : ServiceState) (q r : String)
    (hc : lookupA st.response_cache (h (pyStrip q)) = some r) :
    query_database h llm agent st q = ⟨200, r, st, []⟩ := by
  simp only [query_database]
  rw [hc]

theorem query_database_greeting (h : String → String) (llm : LLMResult)
    (agent : AgentResult) (st : ServiceState) (q : String)
    (hmiss : lookupA st.response_cache (h (pyStrip q)) = none)
    (hg : isGreeting (pyStrip q) = true) :
    query_database h llm agent st q =
      ⟨200, greetingMessage, cacheResponse st (h (pyStrip q)) greetingMessage, []⟩ := by
  simp only [query_database]
  rw [hmiss, hg]
  simp

theorem query_database_main (h : String → String) (llm : LLMResult)
    (agent : AgentResult) (st : ServiceState) (q : String)
    (hmiss : lookupA st.response_cache (h (pyStrip q)) = none)
    (hg : isGreeting (pyStrip q) = false) :
    query_database h llm agent st q =
      (if strContains (relevanceStep h llm st (pyStrip q)).1 "no" then
        ⟨200, declineMessage,
          cacheResponse (relevanceStep h llm st (pyStrip q)).2.1 (h (pyStrip q)) declineMessage,
          (relevanceStep h llm st (pyStrip q)).2.2⟩
      else
        match agent with
        | AgentResult.ok output steps =>
          agentSuccess (relevanceStep h llm st (pyStrip q)).2.1 (h (pyStrip q)) output steps
            ((relevanceStep h llm st (pyStrip q)).2.2 ++ [Effect.agentCall])
        | AgentResult.err e =>
          agentFailure (relevanceStep h llm st (pyStrip q)).2.1 (h (pyStrip q)) e
            ((relevanceStep h llm st (pyStrip q)).2.2 ++ [Effect.agentCall])) := by
  simp only [query_database]
  rw [hmiss, hg]
  simp

/-! ### Claim theorems -/

/-- Claim C1: the spec requires that an empty or whitespace-only question be
rejected with HTTP 400 before any LLM call.  The code has no such check
(`HTTPException` is imported but never raised): a whitespace-only question
misses the cache, fails the greeting test, and proceeds to the
relevance-check LLM call and the SQL agent, returning HTTP 200 and writing
the response cache.  This theorem evaluates the handler at the failing
input. -/
theorem C1_empty_question_not_rejected :
    (query_database (fun s => s) (LLMResult.ok "yes") (AgentResult.ok "the answer" [])
        ⟨[], []⟩ "   ").status = 200 ∧
    (query_database (fun s => s) (LLMResult.ok "yes") (AgentResult.ok "the answer" [])
        ⟨[], []⟩ "   ").effects = [Effect.llmRelevanceCall, Effect.agentCall] ∧
    (query_database (fun s => s) (LLMResult.ok "yes") (AgentResult.ok "the answer" [])
        ⟨[], []⟩ "   ").state.response_cache ≠ [] ∧
    (query_database (fun s => s) (LLMResult.ok "yes") (AgentResult.ok "the answer" [])
        ⟨[], []⟩ "").status = 200 := by
  decide

/-- Claim C2 counterexample: the toolkit bound to the SQL agent is the
unfiltered `SQLDatabaseToolkit`, so it does contain the query-checker and
schema-introspection tools, contradicting the claim that only
query-execution tools are supplied. -/
theorem C2_counterexample :
    "sql_db_query_checker" ∈ agentToolkitTools ∧
    "sql_db_schema" ∈ agentToolkitTools := by
  decide

/-- Claim C2 (amended): `app.py` builds the toolkit with no filtering, so
the tool set supplied to the agent is the full `SQLDatabaseToolkit` set:
query execution plus the schema-introspection, table-listing and
query-checker tools. -/
theorem C2_toolkit_unfiltered :
    agentToolkitTools = sqlDatabaseToolkitTools ∧
    agentToolkitTools =
      ["sql_db_query", "sql_db_schema", "sql_db_list_tables", "sql_db_query_checker"] := by
  decide

/-- Claim C3: when the hash of the trimmed question is already present in
the response cache, the handler returns exactly the cached string, leaves
both caches untouched, and performs no LLM or agent call. -/
theorem C3_cached_question_hit (h : String → String) (llm : LLMResult)
    (agent : AgentResult) (st : ServiceState) (q r : String)
    (hc : lookupA st.response_cache (h (pyStrip q)) = some r) :
    (query_database h llm agent st q).response = r ∧
    (query_database h llm agent st q).state = st ∧
    (query_database h llm agent st q).effects = [] := by
  rw [query_database_cache_hit h llm agent st q r hc]
  exact ⟨rfl, rfl, rfl⟩

/-- Witness for C3 at a concrete cached question. -/
theorem C3_witness :
    (query_database (fun s => s) (LLMResult.ok "yes") (AgentResult.ok "fresh" [])
        ⟨[], [("q1", "cached answer")]⟩ "q1").response = "cached answer" ∧
    (query_database (fun s => s) (LLMResult.ok "yes") (AgentResult.ok "fresh" [])
        ⟨[], [("q1", "cached answer")]⟩ "q1").state = ⟨[], [("q1", "cached answer")]⟩ ∧
    (query_database (fun s => s) (LLMResult.ok "yes") (AgentResult.ok "fresh" [])
        ⟨[], [("q1", "cached answer")]⟩ "q1").effects = [] :=
  C3_cached_question_hit (fun s => s) (LLMResult.ok "yes") (AgentResult.ok "fresh" [])
    ⟨[], [("q1", "cached answer")]⟩ "q1" "cached answer" (by decide)

/-- Claim C4: a non-cached question passing the greeting test returns the
fixed greeting string, stores it in the response cache under the question
hash, and performs no relevance-check LLM call and no agent call. -/
theorem C4_greeting_short_circuit (h : String → String) (llm : LLMResult)
    (agent : AgentResult) (st : ServiceState) (q : String)
    (hmiss : lookupA st.response_cache (h (pyStrip q)) = none)
    (hg : isGreeting (pyStrip q) = true) :
    (query_database h llm agent st q).response = greetingMessage ∧
    lookupA (query_database h llm agent st q).state.response_cache (h (pyStrip q)) =
      some greetingMessage ∧
    (query_database h llm agent st q).effects = [] := by
  rw [query_database_greeting h llm agent st q hmiss hg]
  exact ⟨rfl, lookupA_cons_self _ _ _, rfl⟩

/-- Witness for C4 at the concrete question `"hello"`. -/
theorem C4_witness :
    (query_database (fun s => s) (LLMResult.ok "whatever") (AgentResult.err "down")
        ⟨[], []⟩ "hello").response = greetingMessage ∧
    lookupA (query_database (fun s => s) (LLMResult.ok "whatever") (AgentResult.err "down")
        ⟨[], []⟩ "hello").state.response_cache ((fun s => s) (pyStrip "hello")) =
      some greetingMessage ∧
    (query_database (fun s => s) (LLMResult.ok "whatever") (AgentResult.err "down")
        ⟨[], []⟩ "hello").effects = [] :=
  C4_greeting_short_circuit (fun s => s) (LLMResult.ok "whatever") (AgentResult.err "down")
    ⟨[], []⟩ "hello" (by decide) (by decide)

/-- Claim C10: greeting detection is raw substring containment over the
lowercased trimmed question, with no word boundary and no length
threshold: any non-cached question containing a greeting-vocabulary entry
anywhere (even inside another word) gets the fixed greeting reply and
never reaches the LLM or the agent. -/
theorem C10_substring_triggers_greeting (h : String → String) (llm : LLMResult)
    (agent : AgentResult) (st : ServiceState) (q g : String)
    (hmiss : lookupA st.response_cache (h (pyStrip q)) = none)
    (hmem : g ∈ greetings)
    (hsub : strContains (pyLower (pyStrip q)) g = true) :
    (query_database h llm agent st q).response = greetingMessage ∧
    (query_database h llm agent st q).effects = [] := by
  have hg : isGreeting (pyStrip q) = true := by
    unfold isGreeting
    have hany : greetings.any (fun greet => strContains (pyLower (pyStrip q)) greet) = true :=
      List.any_eq_true.mpr ⟨g, hmem, hsub⟩
    rw [hany]
    simp
  rw [query_database_greeting h llm agent st q hmiss hg]
  exact ⟨rfl, rfl⟩

/-- Witness for C10: a long, clearly non-greeting business question whose
word "which" contains the vocabulary entry "hi". -/
theorem C10_witness :
    (query_database (fun s => s) (LLMResult.ok "yes") (AgentResult.ok "42" [])
        ⟨[], []⟩ "Which port handled the most cargo in 2024-25?").response =
      greetingMessage ∧
    (query_database (fun s => s) (LLMResult.ok "yes") (AgentResult.ok "42" [])
        ⟨[], []⟩ "Which port handled the most cargo in 2024-25?").effects = [] :=
  C10_substring_triggers_greeting (fun s => s) (LLMResult.ok "yes") (AgentResult.ok "42" [])
    ⟨[], []⟩ "Which port handled the most cargo in 2024-25?" "hi"
    (by decide) (by decide) (by decide)

theorem relevanceStep_err (h : String → String) (st : ServiceState) (question e : String)
    (hrc : lookupA st.relevance_cache (h (relevancePrompt question)) = none) :
    relevanceStep h (LLMResult.err e) st question = ("yes", st, [Effect.llmRelevanceCall]) := by
  simp only [relevanceStep]
  rw [hrc]
  by_cases hq : isQuotaError e = true <;> simp [hq]

theorem relevanceStep_ok (h : String → String) (st : ServiceState) (question content : String)
    (hrc : lookupA st.relevance_cache (h (relevancePrompt question)) = none) :
    relevanceStep h (LLMResult.ok content) st question =
      (pyLower content,
        { st with relevance_cache :=
            (h (relevancePrompt question), pyLower content) :: st.relevance_cache },
        [Effect.llmRelevanceCall]) := by
  simp only [relevanceStep]
  rw [hrc]

/-- Claim C5: when the relevance-check LLM call raises any exception, the
handler substitutes `"yes"` and continues: the request succeeds with
status 200, the agent is still invoked, and the response, effect trace and
response cache coincide with those of a run where the classifier really
answered `"yes"` — for every exception text `e`, so nothing about the
error reaches the caller. -/
theorem C5_relevance_error_assumed_relevant (h : String → String) (agent : AgentResult)
    (st : ServiceState) (q e : String)
    (hmiss : lookupA st.response_cache (h (pyStrip q)) = none)
    (hg : isGreeting (pyStrip q) = false)
    (hrc : lookupA st.relevance_cache (h (relevancePrompt (pyStrip q))) = none) :
    (query_database h (LLMResult.err e) agent st q).status = 200 ∧
    Effect.agentCall ∈ (query_database h (LLMResult.err e) agent st q).effects ∧
    (query_database h (LLMResult.err e) agent st q).response =
      (query_database h (LLMResult.ok "yes") agent st q).response ∧
    (query_database h (LLMResult.err e) agent st q).effects =
      (query_database h (LLMResult.ok "yes") agent st q).effects ∧
    (query_database h (LLMResult.err e) agent st q).state.response_cache =
      (query_database h (LLMResult.ok "yes") agent st q).state.response_cache := by
  rw [query_database_main h (LLMResult.err e) agent st q hmiss hg,
    query_database_main h (LLMResult.ok "yes") agent st q hmiss hg,
    relevanceStep_err h st (pyStrip q) e hrc,
    relevanceStep_ok h st (pyStrip q) "yes" hrc]
  have hno : strContains "yes" "no" = false := by decide
  have hno2 : strContains (pyLower "yes") "no" = false := by decide
  cases agent with
  | ok output steps => simp [hno, hno2, agentSuccess, cacheResponse]
  | err e2 => simp [hno, hno2, agentFailure, cacheResponse]

/-- Witness for C5 at a concrete quota-exhaustion error. -/
theorem C5_witness :
    (query_database (fun s => s) (LLMResult.err "ResourceExhausted: 429 quota")
        (AgentResult.ok "42" []) ⟨[], []⟩ "total cargo volume?").status = 200 ∧
    Effect.agentCall ∈ (query_database (fun s => s)
        (LLMResult.err "ResourceExhausted: 429 quota")
        (AgentResult.ok "42" []) ⟨[], []⟩ "total cargo volume?").effects ∧
    (query_database (fun s => s) (LLMResult.err "ResourceExhausted: 429 quota")
        (AgentResult.ok "42" []) ⟨[], []⟩ "total cargo volume?").response =
      (query_database (fun s => s) (LLMResult.ok "yes")
        (AgentResult.ok "42" []) ⟨[], []⟩ "total cargo volume?").response ∧
    (query_database (fun s => s) (LLMResult.err "ResourceExhausted: 429 quota")
        (AgentResult.ok "42" []) ⟨[], []⟩ "total cargo volume?").effects =
      (query_database (fun s => s) (LLMResult.ok "yes")
        (AgentResult.ok "42" []) ⟨[], []⟩ "total cargo volume?").effects ∧
    (query_database (fun s => s) (LLMResult.err "ResourceExhausted: 429 quota")
        (AgentResult.ok "42" []) ⟨[], []⟩ "total cargo volume?").state.response_cache =
      (query_database (fun s => s) (LLMResult.ok "yes")
        (AgentResult.ok "42" []) ⟨[], []⟩ "total cargo volume?").state.response_cache :=
  C5_relevance_error_assumed_relevant (fun s => s) (AgentResult.ok "42" [])
    ⟨[], []⟩ "total cargo volume?" "ResourceExhausted: 429 quota"
    (by decide) (by decide) (by decide)

/-- Claim C6: when agent execution raises, the reply is the distinct quota
message exactly when the error text matches the quota/rate-limit
substrings, otherwise the generic apology; the reply is cached under the
question hash, and a repeated identical question (whatever the LLM or
agent would now return) is served from the cache with no effects. -/
theorem C6_agent_error_classified_and_cached (h : String → String)
    (llm llm2 : LLMResult) (agent2 : AgentResult) (st : ServiceState) (q e : String)
    (hmiss : lookupA st.response_cache (h (pyStrip q)) = none)
    (hg : isGreeting (pyStrip q) = false)
    (hrel : strContains (relevanceStep h llm st (pyStrip q)).1 "no" = false) :
    (query_database h llm (AgentResult.err e) st q).response =
      (if isQuotaError e = true then quotaMessage else apologyMessage) ∧
    lookupA (query_database h llm (AgentResult.err e) st q).state.response_cache
        (h (pyStrip q)) =
      some (query_database h llm (AgentResult.err e) st q).response ∧
    query_database h llm2 agent2 (query_database h llm (AgentResult.err e) st q).state q =
      ⟨200, (query_database h llm (AgentResult.err e) st q).response,
        (query_database h llm (AgentResult.err e) st q).state, []⟩ := by
  have hq := query_database_main h llm (AgentResult.err e) st q hmiss hg
  rw [hrel] at hq
  simp only [Bool.false_eq_true, if_false, agentFailure] at hq
  rw [hq]
  refine ⟨rfl, lookupA_cons_self _ _ _, ?_⟩
  exact query_database_cache_hit h llm2 agent2 _ q _ (lookupA_cons_self _ _ _)

/-- Witness for C6: a quota error text and a repeat request. -/
theorem C6_witness :
    (query_database (fun s => s) (LLMResult.ok "yes")
        (AgentResult.err "429 Too Many Requests") ⟨[], []⟩ "total revenue?").response =
      (if isQuotaError "429 Too Many Requests" = true then quotaMessage
        else apologyMessage) ∧
    lookupA (query_database (fun s => s) (LLMResult.ok "yes")
        (AgentResult.err "429 Too Many Requests") ⟨[], []⟩
        "total revenue?").state.response_cache ((fun s => s) (pyStrip "total revenue?")) =
      some (query_database (fun s => s) (LLMResult.ok "yes")
        (AgentResult.err "429 Too Many Requests") ⟨[], []⟩ "total revenue?").response ∧
    query_database (fun s => s) (LLMResult.err "down") (AgentResult.ok "fresh" [])
        (query_database (fun s => s) (LLMResult.ok "yes")
          (AgentResult.err "429 Too Many Requests") ⟨[], []⟩ "total revenue?").state
        "total revenue?" =
      ⟨200, (query_database (fun s => s) (LLMResult.ok "yes")
          (AgentResult.err "429 Too Many Requests") ⟨[], []⟩ "total revenue?").response,
        (query_database (fun s => s) (LLMResult.ok "yes")
          (AgentResult.err "429 Too Many Requests") ⟨[], []⟩ "total revenue?").state, []⟩ :=
  C6_agent_error_classified_and_cached (fun s => s) (LLMResult.ok "yes")
    (LLMResult.err "down") (AgentResult.ok "fresh" []) ⟨[], []⟩ "total revenue?"
    "429 Too Many Requests" (by decide) (by decide) (by decide)

theorem startsWithL_nil (hay : List Char) : startsWithL hay [] = true := by
  cases hay <;> rfl

theorem startsWithL_append (l r : List Char) : startsWithL (l ++ r) l = true := by
  induction l with
  | nil => exact startsWithL_nil r
  | cons a as ih => simp [startsWithL, ih]

/-- Claim C7: when the agent's final output passes the purely-numeric test
(digits only after removing commas, dots and spaces), the returned
response is the sentence `"The result is <output>."` (possibly followed by
the diagnostic SQL-query suffix), never the bare number itself. -/
theorem C7_numeric_output_wrapped (h : String → String) (llm : LLMResult)
    (st : ServiceState) (q output : String) (steps : List AgentStep)
    (hmiss : lookupA st.response_cache (h (pyStrip q)) = none)
    (hg : isGreeting (pyStrip q) = false)
    (hrel : strContains (relevanceStep h llm st (pyStrip q)).1 "no" = false)
    (hnum : isPureNumeric output = true) :
    (∃ rest : String,
      (query_database h llm (AgentResult.ok output steps) st q).response =
        "The result is " ++ output ++ "." ++ rest) ∧
    (query_database h llm (AgentResult.ok output steps) st q).response ≠ output := by
  have hq := query_database_main h llm (AgentResult.ok output steps) st q hmiss hg
  rw [hrel] at hq
  simp only [Bool.false_eq_true, if_false, agentSuccess, hnum, if_true] at hq
  have hresp : (query_database h llm (AgentResult.ok output steps) st q).response =
      "The result is " ++ output ++ "." ++
        (if extractSql steps = sqlDefault then ""
          else "\n\nSQL Query Used: " ++ extractSql steps) := by
    rw [hq]
    by_cases hsql : extractSql steps = sqlDefault
    · simp [hsql]
    · simp only [hsql, bne_iff_ne, ne_eq, not_false_eq_true, if_true, if_false]
      simp [hsql, String.append_assoc]
      have hlit : (".\n\nSQL Query Used: " : String) = "." ++ "\n\nSQL Query Used: " := by
        decide
      rw [hlit, String.append_assoc]
  refine ⟨⟨_, hresp⟩, ?_⟩
  intro heq
  rw [hresp] at heq
  have hlen := congrArg String.length heq
  simp only [String.length_append] at hlen
  have h14 : ("The result is " : String).length = 14 := by decide
  have h1 : ("." : String).length = 1 := by decide
  rw [h14, h1] at hlen
  omega

/-- Witness for C7 at the concrete numeric output `"1234.5"`. -/
theorem C7_witness :
    (∃ rest : String,
      (query_database (fun s => s) (LLMResult.ok "yes") (AgentResult.ok "1234.5" [])
          ⟨[], []⟩ "average revenue in 2023?").response =
        "The result is " ++ "1234.5" ++ "." ++ rest) ∧
    (query_database (fun s => s) (LLMResult.ok "yes") (AgentResult.ok "1234.5" [])
        ⟨[], []⟩ "average revenue in 2023?").response ≠ "1234.5" :=
  C7_numeric_output_wrapped (fun s => s) (LLMResult.ok "yes") ⟨[], []⟩
    "average revenue in 2023?" "1234.5" []
    (by decide) (by decide) (by decide) (by decide)

/-- Claim C8: a non-cached, non-greeting question whose relevance response
contains `"no"` gets the fixed decline string, the decline is cached under
the question hash, and the agent is never invoked. -/
theorem C8_not_relevant_declined (h : String → String) (llm : LLMResult)
    (agent : AgentResult) (st : ServiceState) (q : String)
    (hmiss : lookupA st.response_cache (h (pyStrip q)) = none)
    (hg : isGreeting (pyStrip q) = false)
    (hrel : strContains (relevanceStep h llm st (pyStrip q)).1 "no" = true) :
    (query_database h llm agent st q).response = declineMessage ∧
    lookupA (query_database h llm agent st q).state.response_cache (h (pyStrip q)) =
      some declineMessage ∧
    Effect.agentCall ∉ (query_database h llm agent st q).effects := by
  have hq := query_database_main h llm agent st q hmiss hg
  rw [hrel] at hq
  simp only [if_true] at hq
  rw [hq]
  refine ⟨rfl, lookupA_cons_self _ _ _, ?_⟩
  rcases relevanceStep_effects h llm st (pyStrip q) with he | he <;> rw [he] <;> simp

/-- Witness for C8: the classifier (freshly invoked) answers `"No"`. -/
theorem C8_witness :
    (query_database (fun s => s) (LLMResult.ok "No") (AgentResult.ok "unused" [])
        ⟨[], []⟩ "best pizza in town?").response = declineMessage ∧
    lookupA (query_database (fun s => s) (LLMResult.ok "No") (AgentResult.ok "unused" [])
        ⟨[], []⟩ "best pizza in town?").state.response_cache
        ((fun s => s) (pyStrip "best pizza in town?")) = some declineMessage ∧
    Effect.agentCall ∉ (query_database (fun s => s) (LLMResult.ok "No")
        (AgentResult.ok "unused" []) ⟨[], []⟩ "best pizza in town?").effects :=
  C8_not_relevant_declined (fun s => s) (LLMResult.ok "No") (AgentResult.ok "unused" [])
    ⟨[], []⟩ "best pizza in town?" (by decide) (by decide) (by decide)

theorem cacheResponse_shape (h : String → String) (llm : LLMResult)
    (st : ServiceState) (question x : String) :
    (cacheResponse (relevanceStep h llm st question).2.1 (h question) x).response_cache =
      (h question, x) :: st.response_cache ∧
    ((cacheResponse (relevanceStep h llm st question).2.1 (h question) x).relevance_cache =
        st.relevance_cache ∨
      (lookupA st.relevance_cache (h (relevancePrompt question)) = none ∧
        ∃ y, (cacheResponse (relevanceStep h llm st question).2.1
            (h question) x).relevance_cache =
          (h (relevancePrompt question), y) :: st.relevance_cache)) := by
  constructor
  · simp [cacheResponse, relevanceStep_response_cache]
  · simpa [cacheResponse] using relevanceStep_relevance_cache h llm st question

theorem query_database_state_shape (h : String → String) (llm : LLMResult)
    (agent : AgentResult) (st : ServiceState) (q : String) :
    (query_database h llm agent st q).state = st ∨
    (lookupA st.response_cache (h (pyStrip q)) = none ∧
      (∃ x, (query_database h llm agent st q).state.response_cache =
          (h (pyStrip q), x) :: st.response_cache) ∧
      ((query_database h llm agent st q).state.relevance_cache = st.relevance_cache ∨
        (lookupA st.relevance_cache (h (relevancePrompt (pyStrip q))) = none ∧
          ∃ y, (query_database h llm agent st q).state.relevance_cache =
            (h (relevancePrompt (pyStrip q)), y) :: st.relevance_cache))) := by
  cases hc : lookupA st.response_cache (h (pyStrip q)) with
  | some cached =>
    left
    rw [query_database_cache_hit h llm agent st q cached hc]
  | none =>
    right
    refine ⟨rfl, ?_⟩
    cases hg : isGreeting (pyStrip q) with
    | true =>
      rw [query_database_greeting h llm agent st q hc hg]
      exact ⟨⟨greetingMessage, rfl⟩, Or.inl rfl⟩
    | false =>
      rw [query_database_main h llm agent st q hc hg]
      by_cases hno : strContains (relevanceStep h llm st (pyStrip q)).1 "no" = true
      · rw [if_pos hno]
        have hs := cacheResponse_shape h llm st (pyStrip q) declineMessage
        exact ⟨⟨declineMessage, hs.1⟩, hs.2⟩
      · rw [if_neg hno]
        cases agent with
        | ok output steps =>
          simp only [agentSuccess]
          have hs := cacheResponse_shape h llm st (pyStrip q)
            (if (extractSql steps != sqlDefault) = true then
              (if isPureNumeric output = true then "The result is " ++ output ++ "."
                else output) ++ "\n\nSQL Query Used: " ++ extractSql steps
            else
              (if isPureNumeric output = true then "The result is " ++ output ++ "."
                else output))
          exact ⟨⟨_, hs.1⟩, hs.2⟩
        | err e =>
          simp only [agentFailure]
          have hs := cacheResponse_shape h llm st (pyStrip q)
            (if isQuotaError e = true then quotaMessage else apologyMessage)
          exact ⟨⟨_, hs.1⟩, hs.2⟩

/-- Claim C9: for every request, both caches grow monotonically: every
existing binding in the response cache and the relevance cache is still
observable afterwards (nothing is removed or overwritten), a question
whose hash is already present causes an early return that changes nothing,
and the only keys whose bindings can change are the hash of the trimmed
question (response cache) and the hash of the classification prompt
(relevance cache). -/
theorem C9_caches_monotone (h : String → String) (llm : LLMResult)
    (agent : AgentResult) (st : ServiceState) (q : String) :
    (∀ k v, lookupA st.response_cache k = some v →
      lookupA (query_database h llm agent st q).state.response_cache k = some v) ∧
    (∀ k v, lookupA st.relevance_cache k = some v →
      lookupA (query_database h llm agent st q).state.relevance_cache k = some v) ∧
    (∀ v, lookupA st.response_cache (h (pyStrip q)) = some v →
      (query_database h llm agent st q).state = st) ∧
    (∀ k, lookupA (query_database h llm agent st q).state.response_cache k ≠
        lookupA st.response_cache k → k = h (pyStrip q)) ∧
    (∀ k, lookupA (query_database h llm agent st q).state.relevance_cache k ≠
        lookupA st.relevance_cache k → k = h (relevancePrompt (pyStrip q))) := by
  rcases query_database_state_shape h llm agent st q with hs | ⟨hmiss, ⟨x, hresp⟩, hrel⟩
  · rw [hs]
    exact ⟨fun k v hv => hv, fun k v hv => hv, fun v _ => rfl,
      fun k hk => absurd rfl hk, fun k hk => absurd rfl hk⟩
  · refine ⟨?_, ?_, ?_, ?_, ?_⟩
    · intro k v hv
      rw [hresp]
      exact lookupA_insert_preserve _ _ _ hmiss k v hv
    · intro k v hv
      rcases hrel with hrc | ⟨hrcnone, y, hrc⟩
      · rw [hrc]; exact hv
      · rw [hrc]
        exact lookupA_insert_preserve _ _ _ hrcnone k v hv
    · intro v hv
      rw [hmiss] at hv
      exact absurd hv (by simp)
    · intro k hk
      rw [hresp] at hk
      exact lookupA_insert_changed _ _ _ _ hk
    · intro k hk
      rcases hrel with hrc | ⟨hrcnone, y, hrc⟩
      · rw [hrc] at hk
        exact absurd rfl hk
      · rw [hrc] at hk
        exact lookupA_insert_changed _ _ _ _ hk

/-- Witness for C9: a present key causes an early return that leaves the
state untouched. -/
theorem C9_witness :
    (query_database (fun s => s) (LLMResult.ok "yes") (AgentResult.ok "fresh" [])
        ⟨[("p", "yes")], [("q1", "v1")]⟩ "q1").state = ⟨[("p", "yes")], [("q1", "v1")]⟩ :=
  (C9_caches_monotone (fun s => s) (LLMResult.ok "yes") (AgentResult.ok "fresh" [])
      ⟨[("p", "yes")], [("q1", "v1")]⟩ "q1").2.2.1 "v1" (by decide)
